import Mathlib

/-!
Shallow embedding of the transform/gesture engine of
`src/src/image/src/ImagePreview.tsx` (naive-ui image preview component).

Numbers that are JS `number`s in the source are modelled as rationals (ℚ);
all arithmetic in the modelled fragment is exact (+, -, *, /, min, max,
integer powers of the scale radix), so ℚ is a faithful model away from
floating-point rounding.  DOM measurements (`window.innerWidth/innerHeight`,
`preview.getBoundingClientRect()`, `naturalWidth/naturalHeight`) are inputs
supplied by the render layer and are passed as explicit parameters.
-/

/-- `const BLEEDING = 32` (ImagePreview.tsx line 49). -/
def BLEEDING : ℚ := 32

/-- `const scaleRadix = 1.5` (line 316). -/
def scaleRadix : ℚ := 3 / 2

/-- The two horizontal drag directions of the `MoveStrategy` type. -/
inductive HDir
  | horizontalLeft
  | horizontalRight
deriving DecidableEq

/-- The two vertical drag directions of the `MoveStrategy` type. -/
inductive VDir
  | verticalTop
  | verticalBottom
deriving DecidableEq

/-- `MoveStrategy` (interface.ts, produced by `getMoveStrategy`, lines 184-209). -/
structure MoveStrategy where
  moveVerticalDirection : VDir
  moveHorizontalDirection : HDir
  deltaHorizontal : ℚ
  deltaVertical : ℚ
deriving DecidableEq

/-- `getMoveStrategy` (lines 184-209): net drag direction and deltas from the
mouse-down and mouse-up client coordinates. -/
def getMoveStrategy (mouseUpClientX mouseUpClientY mouseDownClientX mouseDownClientY : ℚ) :
    MoveStrategy :=
  let deltaHorizontal := mouseDownClientX - mouseUpClientX
  let deltaVertical := mouseDownClientY - mouseUpClientY
  { moveVerticalDirection := if deltaVertical > 0 then .verticalTop else .verticalBottom
    moveHorizontalDirection := if deltaHorizontal > 0 then .horizontalLeft else .horizontalRight
    deltaHorizontal := deltaHorizontal
    deltaVertical := deltaVertical }

/-- The bounding box returned by `preview.getBoundingClientRect()`. -/
structure PBox where
  width : ℚ
  left : ℚ
  height : ℚ
  top : ℚ
deriving DecidableEq

/-- `DOMRect.right = x + width`, so the `pbox.right` the source reads is `left + width`. -/
def PBox.right (b : PBox) : ℚ := b.left + b.width

/-- `DOMRect.bottom = y + height`. -/
def PBox.bottom (b : PBox) : ℚ := b.top + b.height

/-- `getDerivedOffset` (lines 212-277), the boundary clamp.  The source first
returns `(0, 0)` when the preview element is not mounted; this embedding models
the mounted path, where `pbox` is the measured bounding box and
`innerWidth/innerHeight` are the viewport size.  A missing `moveStrategy`
(zoom-triggered calls) makes every destructured field `undefined`, so the
direction comparisons fail and `deltaHorizontal ?? 0` yields `0`; that is
modelled by `Option.map`/`getD 0`. -/
def getDerivedOffset (pbox : PBox) (innerWidth innerHeight : ℚ)
    (moveStrategy : Option MoveStrategy) (startOffsetX startOffsetY : ℚ) : ℚ × ℚ :=
  let hd := moveStrategy.map (·.moveHorizontalDirection)
  let vd := moveStrategy.map (·.moveVerticalDirection)
  let dh := (moveStrategy.map (·.deltaHorizontal)).getD 0
  let dv := (moveStrategy.map (·.deltaVertical)).getD 0
  let nextOffsetX :=
    if pbox.width ≤ innerWidth then 0
    else if pbox.left > 0 then (pbox.width - innerWidth) / 2
    else if pbox.right < innerWidth then -((pbox.width - innerWidth) / 2)
    else if hd = some .horizontalRight then
      min ((pbox.width - innerWidth) / 2) (startOffsetX - dh)
    else
      max (-((pbox.width - innerWidth) / 2)) (startOffsetX - dh)
  let nextOffsetY :=
    if pbox.height ≤ innerHeight then 0
    else if pbox.top > 0 then (pbox.height - innerHeight) / 2
    else if pbox.bottom < innerHeight then -((pbox.height - innerHeight) / 2)
    else if vd = some .verticalBottom then
      min ((pbox.height - innerHeight) / 2) (startOffsetY - dv)
    else
      max (-((pbox.height - innerHeight) / 2)) (startOffsetY - dv)
  (nextOffsetX, nextOffsetY)

/-- The geometry inputs the engine reads from the render layer:
`preview.naturalWidth/naturalHeight` and `window.innerWidth/innerHeight`. -/
structure PreviewGeometry where
  naturalWidth : ℚ
  naturalHeight : ℚ
  innerWidth : ℚ
  innerHeight : ℚ
deriving DecidableEq

/-- `getMaxScale` (lines 348-362), mounted path:
`max(3, max(1, naturalHeight/(innerHeight-BLEEDING))*2, max(1, naturalWidth/(innerWidth-BLEEDING))*2)`. -/
def getMaxScale (g : PreviewGeometry) : ℚ :=
  let heightMaxScale := max 1 (g.naturalHeight / (g.innerHeight - BLEEDING))
  let widthMaxScale := max 1 (g.naturalWidth / (g.innerWidth - BLEEDING))
  max 3 (max (heightMaxScale * 2) (widthMaxScale * 2))

/-- `getOrignalImageSizeScale` (lines 363-374), mounted path: the two raw
ratios, `1` when both are `< 1`, else their max.  (Function name kept with the
source's spelling.) -/
def getOrignalImageSizeScale (g : PreviewGeometry) : ℚ :=
  let heightScale := g.naturalHeight / (g.innerHeight - BLEEDING)
  let widthScale := g.naturalWidth / (g.innerWidth - BLEEDING)
  if heightScale < 1 ∧ widthScale < 1 then 1
  else max heightScale widthScale

/-- Modelled from the spec: `getMaxScale` as §7 of the spec words the
division-by-zero guard — "clamping that denominator to a minimum of 1 before
dividing".  Used only to compare the spec's guarded computation with the
source's. -/
def getMaxScaleSpecGuarded (g : PreviewGeometry) : ℚ :=
  let heightMaxScale := max 1 (g.naturalHeight / max 1 (g.innerHeight - BLEEDING))
  let widthMaxScale := max 1 (g.naturalWidth / max 1 (g.innerWidth - BLEEDING))
  max 3 (max (heightMaxScale * 2) (widthMaxScale * 2))

/-- Modelled from the spec: `getOrignalImageSizeScale` with the denominator
guard §7 of the spec claims ("clamping that denominator to a minimum of 1
before dividing").  Used only to compare the spec's guarded computation with
the source's. -/
def getOrignalImageSizeScaleSpecGuarded (g : PreviewGeometry) : ℚ :=
  let heightScale := g.naturalHeight / max 1 (g.innerHeight - BLEEDING)
  let widthScale := g.naturalWidth / max 1 (g.innerWidth - BLEEDING)
  if heightScale < 1 ∧ widthScale < 1 then 1
  else max heightScale widthScale

/-- The mutable state of the controller: the closure-captured gesture
variables (lines 166-175), the transform variables (lines 317-319), and
counters modelling how often the external `onPrev`/`onNext` hooks were
invoked. -/
structure PreviewState where
  scale : ℚ
  scaleExp : ℤ
  rotate : ℤ
  offsetX : ℚ
  offsetY : ℚ
  startX : ℚ
  startY : ℚ
  startOffsetX : ℚ
  startOffsetY : ℚ
  mouseDownClientX : ℚ
  mouseDownClientY : ℚ
  dragging : Bool
  onPrevCalls : ℕ
  onNextCalls : ℕ
deriving DecidableEq

/-- The state at session creation: `scale = 1`, `scaleExp = 0`, `rotate = 0`,
all gesture variables `0`, not dragging, no hook invocations. -/
def initialState : PreviewState :=
  { scale := 1, scaleExp := 0, rotate := 0, offsetX := 0, offsetY := 0
    startX := 0, startY := 0, startOffsetX := 0, startOffsetY := 0
    mouseDownClientX := 0, mouseDownClientY := 0, dragging := false
    onPrevCalls := 0, onNextCalls := 0 }

/-- `handleMouseMove` (lines 177-182): `offsetX = clientX - startX`,
`offsetY = clientY - startY`; the frame-coalesced restyle has no state effect. -/
def handleMouseMove (clientX clientY : ℚ) (s : PreviewState) : PreviewState :=
  { s with offsetX := clientX - s.startX, offsetY := clientY - s.startY }

/-- `handlePreviewMousedown` (lines 296-314): ignores non-primary buttons
(`e.button !== 0`); otherwise starts a drag session, anchoring `startX/startY`
and snapshotting the current offset into `startOffsetX/startOffsetY`. -/
def handlePreviewMousedown (button : ℕ) (clientX clientY : ℚ) (s : PreviewState) :
    PreviewState :=
  if button ≠ 0 then s
  else
    { s with
      dragging := true
      startX := clientX - s.offsetX
      startY := clientY - s.offsetY
      startOffsetX := s.offsetX
      startOffsetY := s.offsetY
      mouseDownClientX := clientX
      mouseDownClientY := clientY }

/-- `handleMouseUp` (lines 278-293): ends the drag, computes the move strategy
from down/up coordinates and commits the clamped offset.  `pbox` is the
bounding box measured at this moment. -/
def handleMouseUp (clientX clientY : ℚ) (pbox : PBox) (innerWidth innerHeight : ℚ)
    (s : PreviewState) : PreviewState :=
  let ms := getMoveStrategy clientX clientY s.mouseDownClientX s.mouseDownClientY
  let off := getDerivedOffset pbox innerWidth innerHeight (some ms) s.startOffsetX s.startOffsetY
  { s with dragging := false, offsetX := off.1, offsetY := off.2 }

/-- `resetScale` (lines 326-329). -/
def resetScale (s : PreviewState) : PreviewState :=
  { s with scale := 1, scaleExp := 0 }

/-- `handleSwitchPrev` (lines 330-334): reset scale and rotation, invoke `onPrev`. -/
def handleSwitchPrev (s : PreviewState) : PreviewState :=
  { resetScale s with rotate := 0, onPrevCalls := s.onPrevCalls + 1 }

/-- `handleSwitchNext` (lines 335-339): reset scale and rotation, invoke `onNext`. -/
def handleSwitchNext (s : PreviewState) : PreviewState :=
  { resetScale s with rotate := 0, onNextCalls := s.onNextCalls + 1 }

/-- `rotateCounterclockwise` (lines 340-343). -/
def rotateCounterclockwise (s : PreviewState) : PreviewState :=
  { s with rotate := s.rotate - 90 }

/-- `rotateClockwise` (lines 344-347). -/
def rotateClockwise (s : PreviewState) : PreviewState :=
  { s with rotate := s.rotate + 90 }

/-- `handlePreviewDblclick` (lines 320-325): toggle between
`getOrignalImageSizeScale()` and `1`.  `scaleExp` is untouched. -/
def handlePreviewDblclick (g : PreviewGeometry) (s : PreviewState) : PreviewState :=
  let originalImageSizeScale := getOrignalImageSizeScale g
  { s with scale := if s.scale = originalImageSizeScale then 1 else originalImageSizeScale }

/-- `handleAfterLeave` (lines 533-537): on exit-animation end, reset scale and
rotation. -/
def handleAfterLeave (s : PreviewState) : PreviewState :=
  { resetScale s with rotate := 0 }

/-- `resizeToOrignalImageSize` (lines 451-457): set scale to the original-size
scale, reset offset.  The new exponent is computed in the source as
`Math.ceil(Math.log(scale) / Math.log(scaleRadix))` on IEEE doubles; that
real-logarithm value is passed here as the parameter `logExp`. -/
def resizeToOrignalImageSize (g : PreviewGeometry) (logExp : ℤ) (s : PreviewState) :
    PreviewState :=
  { s with scale := getOrignalImageSizeScale g, scaleExp := logExp, offsetX := 0, offsetY := 0 }

/-- `zoomIn` (lines 376-383): below `getMaxScale()` the exponent is bumped and
the scale becomes `min(maxScale, scaleRadix ** scaleExp)`; otherwise nothing
happens. -/
def zoomIn (g : PreviewGeometry) (s : PreviewState) : PreviewState :=
  let maxScale := getMaxScale g
  if s.scale < maxScale then
    { s with scaleExp := s.scaleExp + 1
             scale := min maxScale (scaleRadix ^ (s.scaleExp + 1)) }
  else s

/-- `zoomOut` (lines 384-399): only when `scale > 0.5`; the exponent is
decremented, `scale = max(0.5, scaleRadix ** scaleExp)`, and the offset is
re-clamped through `getDerivedOffset()` with no move strategy.  `pbox` is the
bounding box the temporary no-transition render at the candidate scale lets
the source measure (the transient `scale += diff; scale -= diff` dance);
the measurement is an input here. -/
def zoomOut (g : PreviewGeometry) (pbox : PBox) (s : PreviewState) : PreviewState :=
  if 1 / 2 < s.scale then
    let off := getDerivedOffset pbox g.innerWidth g.innerHeight none s.startOffsetX s.startOffsetY
    { s with scaleExp := s.scaleExp - 1
             scale := max (1 / 2) (scaleRadix ^ (s.scaleExp - 1))
             offsetX := off.1
             offsetY := off.2 }
  else s

/-- `handleKeydown` (lines 115-138): Space is consumed, ArrowLeft/ArrowRight
invoke `props.onPrev?.()` / `props.onNext?.()` directly, ArrowUp/ArrowDown zoom,
Escape closes (the `close()` path only flips visibility refs, so the modelled
transform state is unchanged). -/
def handleKeydown (g : PreviewGeometry) (pbox : PBox) (key : String) (s : PreviewState) :
    PreviewState :=
  if key = " " then s
  else if key = "ArrowLeft" then { s with onPrevCalls := s.onPrevCalls + 1 }
  else if key = "ArrowRight" then { s with onNextCalls := s.onNextCalls + 1 }
  else if key = "ArrowUp" then zoomIn g s
  else if key = "ArrowDown" then zoomOut g pbox s
  else s

/-- The bounding box the render layer measures when the image (centered in the
viewport by the wrapper, transformed about its own center) sits at offset
`(ox, oy)`: scale and rotation fix `w`/`h`, and the box center is the viewport
center shifted by the offset, so `left = (vw - w)/2 + ox`. -/
def centeredBox (w h vw vh ox oy : ℚ) : PBox :=
  { width := w, left := (vw - w) / 2 + ox, height := h, top := (vh - h) / 2 + oy }

/-- A `MoveStrategy` with the given directions and zero deltas. -/
def MoveStrategy.ofDirs (p : VDir × HDir) : MoveStrategy :=
  { moveVerticalDirection := p.1, moveHorizontalDirection := p.2
    deltaHorizontal := 0, deltaVertical := 0 }

/-- C1: per axis (X and Y), the boundary clamp returns 0 when the box fits the
viewport (regardless of prior offset and direction hint); otherwise, with a
positive near-edge gap (`left > 0` resp. `top > 0`) it returns
`(boxSize - viewportSize)/2` independent of the hint; otherwise, with a gap on
the far edge (`right < viewport` resp. `bottom < viewport`) it returns
`-(boxSize - viewportSize)/2`. -/
theorem c1_clamp_gap_cases (b : PBox) (vw vh : ℚ) (ms : Option MoveStrategy) (sx sy : ℚ) :
    (b.width ≤ vw → (getDerivedOffset b vw vh ms sx sy).1 = 0) ∧
    (vw < b.width → 0 < b.left → (getDerivedOffset b vw vh ms sx sy).1 = (b.width - vw) / 2) ∧
    (vw < b.width → b.left ≤ 0 → b.right < vw →
      (getDerivedOffset b vw vh ms sx sy).1 = -((b.width - vw) / 2)) ∧
    (b.height ≤ vh → (getDerivedOffset b vw vh ms sx sy).2 = 0) ∧
    (vh < b.height → 0 < b.top → (getDerivedOffset b vw vh ms sx sy).2 = (b.height - vh) / 2) ∧
    (vh < b.height → 0 ≥ b.top → b.bottom < vh →
      (getDerivedOffset b vw vh ms sx sy).2 = -((b.height - vh) / 2)) := by
  simp only [getDerivedOffset]
  refine ⟨?_, ?_, ?_, ?_, ?_, ?_⟩ <;> intros <;> split_ifs <;> first | rfl | linarith

/-- Witness for C1: the three X cases and three Y cases at concrete boxes. -/
theorem c1_witness :
    (getDerivedOffset ⟨100, 5, 40, 3⟩ 200 200 none 7 9).1 = 0 ∧
    (getDerivedOffset ⟨300, 10, 40, 3⟩ 100 200 none 7 9).1 = ((300 : ℚ) - 100) / 2 ∧
    (getDerivedOffset ⟨300, -250, 40, 3⟩ 100 200 none 7 9).1 = -(((300 : ℚ) - 100) / 2) ∧
    (getDerivedOffset ⟨40, 3, 100, 5⟩ 200 200 none 7 9).2 = 0 ∧
    (getDerivedOffset ⟨40, 3, 300, 10⟩ 200 100 none 7 9).2 = ((300 : ℚ) - 100) / 2 ∧
    (getDerivedOffset ⟨40, 3, 300, -250⟩ 200 100 none 7 9).2 = -(((300 : ℚ) - 100) / 2) := by
  refine ⟨(c1_clamp_gap_cases _ _ _ _ _ _).1 (by norm_num),
          (c1_clamp_gap_cases _ _ _ _ _ _).2.1 (by norm_num) (by norm_num),
          (c1_clamp_gap_cases _ _ _ _ _ _).2.2.1 (by norm_num) (by norm_num)
            (by norm_num [PBox.right]),
          (c1_clamp_gap_cases _ _ _ _ _ _).2.2.2.1 (by norm_num),
          (c1_clamp_gap_cases _ _ _ _ _ _).2.2.2.2.1 (by norm_num) (by norm_num),
          (c1_clamp_gap_cases _ _ _ _ _ _).2.2.2.2.2 (by norm_num) (by norm_num)
            (by norm_num [PBox.bottom])⟩

/-- C2: when the box fully spans the viewport on the X axis (width > viewport,
left ≤ 0, right ≥ viewport), the clamp returns
`min((boxWidth-viewportWidth)/2, startOffsetX - deltaHorizontal)` for the
`horizontalRight` hint and `max(-(boxWidth-viewportWidth)/2, startOffsetX -
deltaHorizontal)` for `horizontalLeft`; in particular, for box width 1200,
viewport width 1000, box left -150, hint `horizontalRight`, startOffsetX -100,
deltaHorizontal 50, the clamp returns -150. -/
theorem c2_fullspan_direction_clamp :
    (∀ (b : PBox) (vw vh sx sy dh dv : ℚ) (vd : VDir),
      vw < b.width → b.left ≤ 0 → vw ≤ b.right →
        (getDerivedOffset b vw vh (some ⟨vd, .horizontalRight, dh, dv⟩) sx sy).1
          = min ((b.width - vw) / 2) (sx - dh) ∧
        (getDerivedOffset b vw vh (some ⟨vd, .horizontalLeft, dh, dv⟩) sx sy).1
          = max (-((b.width - vw) / 2)) (sx - dh)) ∧
    (getDerivedOffset ⟨1200, -150, 100, 0⟩ 1000 800
      (some ⟨.verticalTop, .horizontalRight, 50, 0⟩) (-100) 0).1 = -150 := by
  constructor
  · intro b vw vh sx sy dh dv vd h1 h2 h3
    constructor <;>
      · simp only [getDerivedOffset]
        split_ifs <;> first | rfl | linarith | simp_all
  · norm_num [getDerivedOffset, PBox.right]

/-- Witness for C2: both direction hints at the concrete fully-spanning box of
the claim's scenario. -/
theorem c2_witness :
    (getDerivedOffset ⟨1200, -150, 100, 0⟩ 1000 800
        (some ⟨.verticalTop, .horizontalRight, 50, 0⟩) (-100) 0).1
      = min (((1200 : ℚ) - 1000) / 2) ((-100) - 50) ∧
    (getDerivedOffset ⟨1200, -150, 100, 0⟩ 1000 800
        (some ⟨.verticalTop, .horizontalLeft, 50, 0⟩) (-100) 0).1
      = max (-(((1200 : ℚ) - 1000) / 2)) ((-100) - 50) :=
  c2_fullspan_direction_clamp.1 ⟨1200, -150, 100, 0⟩ 1000 800 (-100) 0 50 0 .verticalTop
    (by norm_num) (by norm_num) (by norm_num [PBox.right])

/-- C3 counterexample: the clamp is not idempotent under literally "the same
inputs".  Box width 200, left 10, viewport 100, `horizontalLeft` hint with
zero delta, prior offset (startOffsetX) 60: the first clamp returns 50; after
committing (translating the box by the correction 50 - 60) a second clamp with
the same inputs returns 60 ≠ 50. -/
theorem c3_counterexample :
    (getDerivedOffset ⟨200, 10, 50, 0⟩ 100 100
        (some ⟨.verticalTop, .horizontalLeft, 0, 0⟩) 60 0).1 = 50 ∧
    (getDerivedOffset ⟨200, 10 + (50 - 60), 50, 0⟩ 100 100
        (some ⟨.verticalTop, .horizontalLeft, 0, 0⟩) 60 0).1 = 60 ∧
    (50 : ℚ) ≠ 60 := by
  refine ⟨?_, ?_, by norm_num⟩ <;>
    · norm_num [getDerivedOffset, PBox.right]
      try decide

/-- Range of the X clamp on a geometrically consistent box (measured with the
image centered in the viewport at the unclamped offset `startOffsetX -
deltaHorizontal`): the result is 0 for a fitting box and lies within
`[-(w-vw)/2, (w-vw)/2]` for an oversized one. -/
theorem derivedOffsetX_range (b : PBox) (vw vh : ℚ) (ms : Option MoveStrategy) (sx sy : ℚ)
    (hgeom : b.left = (vw - b.width) / 2 + (sx - ((ms.map (·.deltaHorizontal)).getD 0))) :
    (b.width ≤ vw → (getDerivedOffset b vw vh ms sx sy).1 = 0) ∧
    (vw < b.width →
      -((b.width - vw) / 2) ≤ (getDerivedOffset b vw vh ms sx sy).1 ∧
      (getDerivedOffset b vw vh ms sx sy).1 ≤ (b.width - vw) / 2) := by
  constructor
  · intro h
    simp only [getDerivedOffset]
    split_ifs <;> first | rfl | linarith
  · intro h
    simp only [getDerivedOffset, PBox.right]
    split_ifs with h1 h2 h3 h4
    · exact absurd h1 (by linarith)
    · constructor <;> linarith
    · constructor <;> linarith
    · exact ⟨le_min (by linarith) (by linarith), min_le_left _ _⟩
    · exact ⟨le_max_left _ _, max_le (by linarith) (by linarith)⟩

/-- Range of the Y clamp, symmetric to `derivedOffsetX_range`. -/
theorem derivedOffsetY_range (b : PBox) (vw vh : ℚ) (ms : Option MoveStrategy) (sx sy : ℚ)
    (hgeom : b.top = (vh - b.height) / 2 + (sy - ((ms.map (·.deltaVertical)).getD 0))) :
    (b.height ≤ vh → (getDerivedOffset b vw vh ms sx sy).2 = 0) ∧
    (vh < b.height →
      -((b.height - vh) / 2) ≤ (getDerivedOffset b vw vh ms sx sy).2 ∧
      (getDerivedOffset b vw vh ms sx sy).2 ≤ (b.height - vh) / 2) := by
  constructor
  · intro h
    simp only [getDerivedOffset]
    split_ifs <;> first | rfl | linarith
  · intro h
    simp only [getDerivedOffset, PBox.bottom]
    split_ifs with h1 h2 h3 h4
    · exact absurd h1 (by linarith)
    · constructor <;> linarith
    · constructor <;> linarith
    · exact ⟨le_min (by linarith) (by linarith), min_le_left _ _⟩
    · exact ⟨le_max_left _ _, max_le (by linarith) (by linarith)⟩

/-- A value that is 0 for a fitting box and in-range for an oversized one is a
fixed point of the X clamp, when the box is measured at that value, the
`startOffsetX` input is that value and the horizontal delta is 0 (any or no
direction hint). -/
theorem derivedOffsetX_fixedPoint (b : PBox) (vw vh : ℚ) (ms : Option MoveStrategy)
    (a sy : ℚ)
    (hgeom : b.left = (vw - b.width) / 2 + a)
    (hms : (ms.map (·.deltaHorizontal)).getD 0 = 0)
    (h0 : b.width ≤ vw → a = 0)
    (hrange : vw < b.width → -((b.width - vw) / 2) ≤ a ∧ a ≤ (b.width - vw) / 2) :
    (getDerivedOffset b vw vh ms a sy).1 = a := by
  simp only [getDerivedOffset, PBox.right, hms]
  split_ifs with h1 h2 h3 h4
  · exact (h0 h1).symm
  · have := hrange (by linarith)
    linarith
  · have := hrange (by linarith)
    linarith
  · have := hrange (by linarith)
    rw [sub_zero]
    exact min_eq_right (by linarith)
  · have := hrange (by linarith)
    rw [sub_zero]
    exact max_eq_right (by linarith)

/-- Fixed-point property of the Y clamp, symmetric to
`derivedOffsetX_fixedPoint`. -/
theorem derivedOffsetY_fixedPoint (b : PBox) (vw vh : ℚ) (ms : Option MoveStrategy)
    (sx a : ℚ)
    (hgeom : b.top = (vh - b.height) / 2 + a)
    (hms : (ms.map (·.deltaVertical)).getD 0 = 0)
    (h0 : b.height ≤ vh → a = 0)
    (hrange : vh < b.height → -((b.height - vh) / 2) ≤ a ∧ a ≤ (b.height - vh) / 2) :
    (getDerivedOffset b vw vh ms sx a).2 = a := by
  simp only [getDerivedOffset, PBox.bottom, hms]
  split_ifs with h1 h2 h3 h4
  · exact (h0 h1).symm
  · have := hrange (by linarith)
    linarith
  · have := hrange (by linarith)
    linarith
  · have := hrange (by linarith)
    rw [sub_zero]
    exact min_eq_right (by linarith)
  · have := hrange (by linarith)
    rw [sub_zero]
    exact max_eq_right (by linarith)

/-- C3 amended: the clamp is a fixed point under the re-invocation the system
actually performs.  If the first call measures the centered image at its
unclamped offset `(sx - deltaH, sy - deltaV)` and returns `r`, then a second
call that re-measures the box at the committed offset `r`, with the offset
snapshot refreshed to `r` and zero deltas (any direction hint or none),
returns `r` again. -/
theorem c3_idempotence_geometric (w h vw vh : ℚ) (ms : Option MoveStrategy) (sx sy : ℚ)
    (p : Option (VDir × HDir)) (r : ℚ × ℚ)
    (hr : r = getDerivedOffset
        (centeredBox w h vw vh
          (sx - ((ms.map (·.deltaHorizontal)).getD 0))
          (sy - ((ms.map (·.deltaVertical)).getD 0)))
        vw vh ms sx sy) :
    getDerivedOffset (centeredBox w h vw vh r.1 r.2) vw vh
      (p.map MoveStrategy.ofDirs) r.1 r.2 = r := by
  have hX := derivedOffsetX_range
    (centeredBox w h vw vh (sx - ((ms.map (·.deltaHorizontal)).getD 0))
      (sy - ((ms.map (·.deltaVertical)).getD 0))) vw vh ms sx sy rfl
  have hY := derivedOffsetY_range
    (centeredBox w h vw vh (sx - ((ms.map (·.deltaHorizontal)).getD 0))
      (sy - ((ms.map (·.deltaVertical)).getD 0))) vw vh ms sx sy rfl
  rw [← hr] at hX hY
  have hmsH : ((p.map MoveStrategy.ofDirs).map (·.deltaHorizontal)).getD 0 = 0 := by
    cases p <;> rfl
  have hmsV : ((p.map MoveStrategy.ofDirs).map (·.deltaVertical)).getD 0 = 0 := by
    cases p <;> rfl
  rw [Prod.ext_iff]
  exact ⟨derivedOffsetX_fixedPoint _ _ _ _ _ _ rfl hmsH hX.1 hX.2,
         derivedOffsetY_fixedPoint _ _ _ _ _ _ rfl hmsV hY.1 hY.2⟩

/-- Witness for the amended C3: a concrete re-clamp at the committed offset
(50, 0) is a fixed point. -/
theorem c3_witness :
    getDerivedOffset (centeredBox 200 50 100 100 50 0) 100 100 none 50 0 = (50, 0) :=
  c3_idempotence_geometric 200 50 100 100 none 60 0 none (50, 0) (by
    norm_num [getDerivedOffset, centeredBox, PBox.right])

/-- C4: for a fixed geometry, any sequence of `zoomIn` calls keeps
`scale ≤ getMaxScale`, any sequence of `zoomOut` calls (with arbitrary box
measurements) keeps `scale ≥ 0.5`, and `zoomOut` from `scale ≤ 0.5` leaves the
whole state — scale, exponent and offset — unchanged. -/
theorem c4_zoom_ladder_bounds (g : PreviewGeometry) (s0 : PreviewState) :
    (s0.scale ≤ getMaxScale g → ∀ n : ℕ, ((zoomIn g)^[n] s0).scale ≤ getMaxScale g) ∧
    (1 / 2 ≤ s0.scale → ∀ boxes : List PBox,
      1 / 2 ≤ (boxes.foldl (fun s b => zoomOut g b s) s0).scale) ∧
    (s0.scale ≤ 1 / 2 → ∀ b : PBox, zoomOut g b s0 = s0) := by
  have stepIn : ∀ s : PreviewState, s.scale ≤ getMaxScale g →
      (zoomIn g s).scale ≤ getMaxScale g := by
    intro s hs
    simp only [zoomIn]
    split_ifs with hlt
    · exact min_le_left _ _
    · exact hs
  have stepOut : ∀ (s : PreviewState) (b : PBox), 1 / 2 ≤ s.scale →
      1 / 2 ≤ (zoomOut g b s).scale := by
    intro s b hs
    simp only [zoomOut]
    split_ifs with hlt
    · exact le_max_left _ _
    · exact hs
  refine ⟨?_, ?_, ?_⟩
  · intro h n
    induction n with
    | zero => simpa using h
    | succ n ih =>
      rw [Function.iterate_succ_apply']
      exact stepIn _ ih
  · intro h boxes
    have main : ∀ (bs : List PBox) (s : PreviewState), 1 / 2 ≤ s.scale →
        1 / 2 ≤ (bs.foldl (fun s b => zoomOut g b s) s).scale := by
      intro bs
      induction bs with
      | nil => intro s hs; simpa using hs
      | cons b bs ih =>
        intro s hs
        rw [List.foldl_cons]
        exact ih _ (stepOut s b hs)
    exact main boxes s0 h
  · intro h b
    simp only [zoomOut]
    rw [if_neg (by linarith)]

/-- Witness for C4: three `zoomIn` steps from the initial state stay below the
max scale, and two `zoomOut` steps stay at or above 0.5. -/
theorem c4_witness :
    ((zoomIn ⟨2000, 1600, 1000, 800⟩)^[3] initialState).scale
      ≤ getMaxScale ⟨2000, 1600, 1000, 800⟩ ∧
    1 / 2 ≤ ([⟨0, 0, 0, 0⟩, ⟨0, 0, 0, 0⟩].foldl
      (fun s b => zoomOut ⟨2000, 1600, 1000, 800⟩ b s) initialState).scale :=
  ⟨(c4_zoom_ladder_bounds ⟨2000, 1600, 1000, 800⟩ initialState).1
      (by norm_num [initialState, getMaxScale, BLEEDING, max_def]) 3,
   (c4_zoom_ladder_bounds ⟨2000, 1600, 1000, 800⟩ initialState).2.1
      (by norm_num [initialState]) [⟨0, 0, 0, 0⟩, ⟨0, 0, 0, 0⟩]⟩

/-- C5: for nonnegative natural sizes and viewport dimensions above BLEEDING,
`getMaxScale` equals `max(3, 2·heightRatio, 2·widthRatio)` with the raw
(unclamped) ratios; concretely, for viewport 1000×800 and natural size
2000×1600 it is 25/6 (= 4.1666…), and one `zoomIn` from the initial state
yields exponent 1 and scale 1.5. -/
theorem c5_maxscale_formula :
    (∀ g : PreviewGeometry, 0 ≤ g.naturalHeight → 0 ≤ g.naturalWidth →
      BLEEDING < g.innerHeight → BLEEDING < g.innerWidth →
      getMaxScale g
        = max 3 (max (2 * (g.naturalHeight / (g.innerHeight - BLEEDING)))
            (2 * (g.naturalWidth / (g.innerWidth - BLEEDING))))) ∧
    getMaxScale ⟨2000, 1600, 1000, 800⟩ = 25 / 6 ∧
    (zoomIn ⟨2000, 1600, 1000, 800⟩ initialState).scaleExp = 1 ∧
    (zoomIn ⟨2000, 1600, 1000, 800⟩ initialState).scale = 3 / 2 := by
  have key : ∀ a b : ℚ, max 3 (max (max 1 a * 2) (max 1 b * 2))
      = max 3 (max (2 * a) (2 * b)) := by
    intro a b
    apply le_antisymm
    · refine max_le (le_max_left _ _) (max_le ?_ ?_)
      · rcases le_total a 1 with ha | ha
        · rw [max_eq_left ha]
          exact le_max_of_le_left (by norm_num)
        · rw [max_eq_right ha, mul_comm]
          exact le_max_of_le_right (le_max_left _ _)
      · rcases le_total b 1 with hb | hb
        · rw [max_eq_left hb]
          exact le_max_of_le_left (by norm_num)
        · rw [max_eq_right hb, mul_comm]
          exact le_max_of_le_right (le_max_right _ _)
    · refine max_le (le_max_left _ _) (max_le ?_ ?_)
      · refine le_max_of_le_right (le_trans ?_ (le_max_left (max 1 a * 2) _))
        rw [mul_comm]
        exact mul_le_mul_of_nonneg_right (le_max_right 1 a) (by norm_num)
      · refine le_max_of_le_right (le_trans ?_ (le_max_right (max 1 a * 2) _))
        rw [mul_comm]
        exact mul_le_mul_of_nonneg_right (le_max_right 1 b) (by norm_num)
  refine ⟨fun g _ _ _ _ => key _ _, ?_, ?_, ?_⟩
  · norm_num [getMaxScale, BLEEDING, max_def]
  · norm_num [zoomIn, getMaxScale, initialState, BLEEDING, scaleRadix, max_def, min_def]
  · norm_num [zoomIn, getMaxScale, initialState, BLEEDING, scaleRadix, max_def, min_def]

/-- Witness for C5: the formula instantiated at the claim's concrete scenario. -/
theorem c5_witness :
    getMaxScale ⟨2000, 1600, 1000, 800⟩
      = max 3 (max (2 * ((1600 : ℚ) / (800 - BLEEDING)))
          (2 * ((2000 : ℚ) / (1000 - BLEEDING)))) :=
  c5_maxscale_formula.1 ⟨2000, 1600, 1000, 800⟩ (by norm_num) (by norm_num)
    (by norm_num [BLEEDING]) (by norm_num [BLEEDING])

/-- C6 counterexample: the source's ratio computation does not clamp the
denominator to a minimum of 1.  For natural size 100×100 and viewport 1000×30
(height below BLEEDING = 32), `getOrignalImageSizeScale` divides by the
negative denominator -2, getting the ratio -50 < 1, and returns 1; the
spec-worded guarded computation returns 100. -/
theorem c6_counterexample :
    getOrignalImageSizeScale ⟨100, 100, 1000, 30⟩ = 1 ∧
    getOrignalImageSizeScaleSpecGuarded ⟨100, 100, 1000, 30⟩ = 100 ∧
    getOrignalImageSizeScale ⟨100, 100, 1000, 30⟩
      ≠ getOrignalImageSizeScaleSpecGuarded ⟨100, 100, 1000, 30⟩ := by
  norm_num [getOrignalImageSizeScale, getOrignalImageSizeScaleSpecGuarded, BLEEDING, max_def]

/-- C6 amended: the guard the source has is different — `getMaxScale` clamps
each resulting ratio to a minimum of 1 after dividing, so its result is always
≥ 3, while `getOrignalImageSizeScale` has no guard: for a viewport dimension
strictly below BLEEDING its raw ratio is nonpositive and the height
contribution silently drops out. -/
theorem c6_amended :
    (∀ g : PreviewGeometry, 3 ≤ getMaxScale g) ∧
    (∀ g : PreviewGeometry, 0 ≤ g.naturalHeight → g.innerHeight < BLEEDING →
      getOrignalImageSizeScale g
        = if g.naturalWidth / (g.innerWidth - BLEEDING) < 1 then 1
          else g.naturalWidth / (g.innerWidth - BLEEDING)) := by
  constructor
  · intro g
    exact le_max_left _ _
  · intro g h1 h2
    have hneg : g.naturalHeight / (g.innerHeight - BLEEDING) ≤ 0 :=
      div_nonpos_iff.mpr (Or.inl ⟨h1, by linarith⟩)
    simp only [getOrignalImageSizeScale]
    by_cases hw : g.naturalWidth / (g.innerWidth - BLEEDING) < 1
    · rw [if_pos ⟨by linarith, hw⟩, if_pos hw]
    · rw [if_neg (fun hc => hw hc.2), if_neg hw]
      exact max_eq_right (by linarith [not_lt.mp hw])

/-- Witness for the amended C6 at concrete inputs. -/
theorem c6_amended_witness :
    3 ≤ getMaxScale ⟨0, 0, 0, 0⟩ ∧
    getOrignalImageSizeScale ⟨100, 100, 1000, 30⟩
      = if (100 : ℚ) / (1000 - BLEEDING) < 1 then 1 else (100 : ℚ) / (1000 - BLEEDING) :=
  ⟨c6_amended.1 ⟨0, 0, 0, 0⟩,
   c6_amended.2 ⟨100, 100, 1000, 30⟩ (by norm_num) (by norm_num [BLEEDING])⟩

/-- C7 counterexample: after `zoomIn(); rotateClockwise()` the keyboard
ArrowRight handler invokes the `onNext` hook but does NOT reset the transform:
scale stays 3/2 (≠ 1) and rotation stays 90. -/
theorem c7_counterexample :
    (handleKeydown ⟨2000, 1600, 1000, 800⟩ ⟨0, 0, 0, 0⟩ "ArrowRight"
        (rotateClockwise (zoomIn ⟨2000, 1600, 1000, 800⟩ initialState))).scale ≠ 1 ∧
    (handleKeydown ⟨2000, 1600, 1000, 800⟩ ⟨0, 0, 0, 0⟩ "ArrowRight"
        (rotateClockwise (zoomIn ⟨2000, 1600, 1000, 800⟩ initialState))).scale = 3 / 2 ∧
    (handleKeydown ⟨2000, 1600, 1000, 800⟩ ⟨0, 0, 0, 0⟩ "ArrowRight"
        (rotateClockwise (zoomIn ⟨2000, 1600, 1000, 800⟩ initialState))).rotate = 90 ∧
    (handleKeydown ⟨2000, 1600, 1000, 800⟩ ⟨0, 0, 0, 0⟩ "ArrowRight"
        (rotateClockwise (zoomIn ⟨2000, 1600, 1000, 800⟩ initialState))).onNextCalls = 1 := by
  simp only [handleKeydown]
  rw [if_neg (by decide), if_neg (by decide)]
  norm_num [rotateClockwise, zoomIn, getMaxScale, initialState, BLEEDING,
    scaleRadix, max_def, min_def]

/-- C7 amended: the toolbar switch actions `handleSwitchNext`/`handleSwitchPrev`
reset scale to 1, exponent to 0 and rotation to 0 and invoke the external
hook; the keyboard ArrowRight/ArrowLeft bindings only invoke the hook, leaving
scale, exponent, rotation — the whole transform state — unchanged. -/
theorem c7_amended (g : PreviewGeometry) (pbox : PBox) (s : PreviewState) :
    ((handleSwitchNext s).scale = 1 ∧ (handleSwitchNext s).scaleExp = 0 ∧
      (handleSwitchNext s).rotate = 0 ∧
      (handleSwitchNext s).onNextCalls = s.onNextCalls + 1) ∧
    ((handleSwitchPrev s).scale = 1 ∧ (handleSwitchPrev s).scaleExp = 0 ∧
      (handleSwitchPrev s).rotate = 0 ∧
      (handleSwitchPrev s).onPrevCalls = s.onPrevCalls + 1) ∧
    handleKeydown g pbox "ArrowRight" s = { s with onNextCalls := s.onNextCalls + 1 } ∧
    handleKeydown g pbox "ArrowLeft" s = { s with onPrevCalls := s.onPrevCalls + 1 } := by
  refine ⟨⟨rfl, rfl, rfl, rfl⟩, ⟨rfl, rfl, rfl, rfl⟩, ?_, ?_⟩ <;>
    simp [handleKeydown]

/-- C8: during a drag session started by a primary-button mousedown at
`(x0, y0)` from offset `(s.offsetX, s.offsetY)`, after any sequence of
mousemoves, the offset right after a mousemove at `(x, y)` equals
`pointer - pointerDown + offsetAtDragStart` on each axis — the pointer delta is
tracked 1:1 with no clamping until release. -/
theorem c8_drag_offset_tracks_pointer (s : PreviewState) (x0 y0 : ℚ)
    (moves : List (ℚ × ℚ)) (x y : ℚ) :
    (handleMouseMove x y
        (moves.foldl (fun st p => handleMouseMove p.1 p.2 st)
          (handlePreviewMousedown 0 x0 y0 s))).offsetX = x - x0 + s.offsetX ∧
    (handleMouseMove x y
        (moves.foldl (fun st p => handleMouseMove p.1 p.2 st)
          (handlePreviewMousedown 0 x0 y0 s))).offsetY = y - y0 + s.offsetY := by
  have hstart : ∀ (l : List (ℚ × ℚ)) (t : PreviewState),
      (l.foldl (fun st p => handleMouseMove p.1 p.2 st) t).startX = t.startX ∧
      (l.foldl (fun st p => handleMouseMove p.1 p.2 st) t).startY = t.startY := by
    intro l
    induction l with
    | nil => intro t; exact ⟨rfl, rfl⟩
    | cons p ps ih =>
      intro t
      rw [List.foldl_cons]
      exact ih _
  have hd : (handlePreviewMousedown 0 x0 y0 s).startX = x0 - s.offsetX ∧
      (handlePreviewMousedown 0 x0 y0 s).startY = y0 - s.offsetY := by
    simp [handlePreviewMousedown]
  constructor
  · show x - (moves.foldl (fun st p => handleMouseMove p.1 p.2 st)
      (handlePreviewMousedown 0 x0 y0 s)).startX = x - x0 + s.offsetX
    rw [(hstart moves _).1, hd.1]
    ring
  · show y - (moves.foldl (fun st p => handleMouseMove p.1 p.2 st)
      (handlePreviewMousedown 0 x0 y0 s)).startY = y - y0 + s.offsetY
    rw [(hstart moves _).2, hd.2]
    ring

/-- C9 counterexample: `scale ≥ 0.5` is NOT an invariant of every operation.
From the initial state with geometry 2000×1600 in a 1000×800 viewport, the
reachable sequence zoomOut, zoomOut, double-click, zoomOut, zoomIn ends with
scale 4/9 < 1/2: the two extra zoomOut calls push the exponent to -3 while the
scale floors at 1/2, and the next zoomIn sets scale to radix^(-2) = 4/9. -/
theorem c9_counterexample :
    (zoomIn ⟨2000, 1600, 1000, 800⟩
        (zoomOut ⟨2000, 1600, 1000, 800⟩ ⟨0, 0, 0, 0⟩
          (handlePreviewDblclick ⟨2000, 1600, 1000, 800⟩
            (zoomOut ⟨2000, 1600, 1000, 800⟩ ⟨0, 0, 0, 0⟩
              (zoomOut ⟨2000, 1600, 1000, 800⟩ ⟨0, 0, 0, 0⟩ initialState))))).scale = 4 / 9 ∧
    (4 : ℚ) / 9 < 1 / 2 := by
  norm_num [zoomIn, zoomOut, handlePreviewDblclick, getOrignalImageSizeScale, getMaxScale,
    getDerivedOffset, initialState, BLEEDING, scaleRadix, max_def, min_def]

/-- C9 amended: `scale ≥ 0.5` is preserved by every operation except a
`zoomIn` from a stale exponent below -2: `zoomOut` floors at 0.5,
`getOrignalImageSizeScale` is always ≥ 1 (so the double-click toggle and
resize-to-original set scale ≥ 1), the switch/reset paths set scale to 1, and
`zoomIn` keeps scale ≥ 0.5 whenever the current exponent is ≥ -2. -/
theorem c9_amended (g : PreviewGeometry) (b : PBox) (e : ℤ) (s : PreviewState) :
    (1 / 2 ≤ s.scale → 1 / 2 ≤ (zoomOut g b s).scale) ∧
    1 ≤ getOrignalImageSizeScale g ∧
    1 ≤ (handlePreviewDblclick g s).scale ∧
    1 ≤ (resizeToOrignalImageSize g e s).scale ∧
    (handleSwitchNext s).scale = 1 ∧
    (handleSwitchPrev s).scale = 1 ∧
    (handleAfterLeave s).scale = 1 ∧
    (-2 ≤ s.scaleExp → 1 / 2 ≤ (zoomIn g s).scale) := by
  have horig : 1 ≤ getOrignalImageSizeScale g := by
    simp only [getOrignalImageSizeScale]
    split_ifs with hc
    · exact le_refl 1
    · rcases not_and_or.mp hc with hh | hw
      · exact le_max_of_le_left (not_lt.mp hh)
      · exact le_max_of_le_right (not_lt.mp hw)
  refine ⟨?_, horig, ?_, horig, rfl, rfl, rfl, ?_⟩
  · intro hs
    simp only [zoomOut]
    split_ifs with hlt
    · exact le_max_left _ _
    · exact hs
  · simp only [handlePreviewDblclick]
    split_ifs with hc
    · exact le_refl 1
    · exact horig
  · intro he
    simp only [zoomIn]
    split_ifs with hlt
    · refine le_min ?_ ?_
      · calc (1 : ℚ) / 2 ≤ 3 := by norm_num
        _ ≤ getMaxScale g := le_max_left _ _
      · calc (1 : ℚ) / 2 ≤ scaleRadix ^ (-1 : ℤ) := by norm_num [scaleRadix]
        _ ≤ scaleRadix ^ (s.scaleExp + 1) :=
          zpow_le_zpow_right₀ (by norm_num [scaleRadix]) (by omega)
    · calc (1 : ℚ) / 2 ≤ 3 := by norm_num
      _ ≤ getMaxScale g := le_max_left _ _
      _ ≤ s.scale := not_lt.mp hlt

/-- Witness for the amended C9 at the initial state. -/
theorem c9_amended_witness :
    1 / 2 ≤ (zoomOut ⟨2000, 1600, 1000, 800⟩ ⟨0, 0, 0, 0⟩ initialState).scale ∧
    1 / 2 ≤ (zoomIn ⟨2000, 1600, 1000, 800⟩ initialState).scale :=
  ⟨(c9_amended ⟨2000, 1600, 1000, 800⟩ ⟨0, 0, 0, 0⟩ 0 initialState).1
      (by norm_num [initialState]),
   (c9_amended ⟨2000, 1600, 1000, 800⟩ ⟨0, 0, 0, 0⟩ 0 initialState).2.2.2.2.2.2.2
      (by norm_num [initialState])⟩

/-- C10: a `zoomOut`-triggered clamp call carries no move strategy, so when the
box fully spans an axis the computation falls through to the
horizontalLeft/verticalTop (max) branch with delta 0, giving
`max(-(boxSize-viewportSize)/2, startOffset)` where `startOffset` is the
snapshot taken at the most recent drag start (the formula mentions
`s.startOffsetX`/`s.startOffsetY`, not the current `s.offsetX`/`s.offsetY`). -/
theorem c10_zoomout_nohint (g : PreviewGeometry) (pbox : PBox) (s : PreviewState)
    (hs : 1 / 2 < s.scale) :
    (g.innerWidth < pbox.width → pbox.left ≤ 0 → g.innerWidth ≤ pbox.right →
      (zoomOut g pbox s).offsetX = max (-((pbox.width - g.innerWidth) / 2)) s.startOffsetX) ∧
    (g.innerHeight < pbox.height → pbox.top ≤ 0 → g.innerHeight ≤ pbox.bottom →
      (zoomOut g pbox s).offsetY = max (-((pbox.height - g.innerHeight) / 2)) s.startOffsetY) := by
  simp only [zoomOut, if_pos hs]
  constructor <;>
    · intro h1 h2 h3
      simp only [getDerivedOffset]
      split_ifs <;> first | (simp; done) | linarith | simp_all

/-- Witness for C10 at a concrete fully-spanning box. -/
theorem c10_witness :
    (zoomOut ⟨2000, 1600, 1000, 800⟩ ⟨1200, -100, 100, 0⟩ initialState).offsetX
      = max (-(((1200 : ℚ) - 1000) / 2)) initialState.startOffsetX :=
  (c10_zoomout_nohint _ _ _ (by norm_num [initialState])).1
    (by norm_num) (by norm_num) (by norm_num [PBox.right])
